import Mathlib

/-!
# SAMD51 TC periodic-timer driver: embedding and verified properties

The driver in `src/SAMD51_Timer.hpp` (class `SAMD51TC`) and the interrupt
entry points in `src/SAMD51_TC.cpp` are embedded as pure functions on an
explicit state.  One `SAMD51TC` value carries the C++ object's fields, the
part of the `TcCount16` register block the driver touches, the unit's lines at
the interrupt controller and at the clock controllers, and a trace of the
callback invocations made so far.

Machine integers are naturals reduced modulo `2 ^ w` where the source stores
them into a `w`-bit object.  Pointers are naturals, `0` being `nullptr`.
-/

namespace SAMD51

/-- Pointer values (function pointers and `void*` alike); `nullptr` is `0`. -/
abbrev Ptr := Nat

/-- The null pointer. -/
def nullptr : Ptr := 0

/-- Struct `GCLKDescription`: generator id (`uint8_t`) and frequency in Hz (`uint32_t`). -/
structure GCLKDescription where
  id : Nat
  frequency : Nat
  deriving DecidableEq, Repr

def GENERIC_CLOCK_GENERATOR_1M : Nat := 5
def GENERIC_CLOCK_GENERATOR_XOSC32K : Nat := 3

/-- GCLK whose output clock is 1 MHz. -/
def GCLK_1M : GCLKDescription := ⟨GENERIC_CLOCK_GENERATOR_1M, 1000000⟩

/-- GCLK whose output clock is 32.768 kHz, generated from XOSC32K. -/
def GCLK_XOSC32K : GCLKDescription := ⟨GENERIC_CLOCK_GENERATOR_XOSC32K, 32768⟩

/-- The fields of the `TcCount16` register block that the driver reads or writes.
`INTEN_MC0` is the match-interrupt enable bit seen through `INTENSET`/`INTENCLR`.
Each `SYNCBUSY_x` is the number of further polls for which the hardware still
reports the bit `SYNCBUSY.x` as set. -/
structure TcCount16 where
  CTRLA_ENABLE : Bool
  CTRLA_MODE : Nat
  CTRLA_PRESCALER : Nat
  CTRLBSET_CMD : Nat
  WAVE_WAVEGEN : Nat
  INTEN_MC0 : Bool
  INTFLAG_MC0 : Bool
  COUNT : Nat
  CC0 : Nat
  SYNCBUSY_SWRST : Nat
  SYNCBUSY_ENABLE : Nat
  SYNCBUSY_CTRLB : Nat
  SYNCBUSY_COUNT : Nat
  SYNCBUSY_CC0 : Nat
  deriving DecidableEq, Repr

/-- Modelled from the spec: the vendor header `samd.h` and the hardware behind it are
not part of the repository.  The record holds the header constants the driver
names, the register block's power-on contents ("resets the peripheral to its
power-on state") and the number of polls a synchronised write keeps its busy
bit set ("bounded by hardware latency"). -/
structure Samd where
  TC_WAVE_WAVEGEN_MFRQ_Val : Nat
  TC_CTRLA_MODE_COUNT16_Val : Nat
  TC_CTRLBCLR_CMD_RETRIGGER_Val : Nat
  GCLK_PCHCTRL_GEN : Nat → Nat
  GCLK_PCHCTRL_CHEN : Nat
  powerOn : TcCount16
  syncLatency : Nat

/-- One timer unit: the C++ object `SAMD51TC` together with the hardware it is bound to.

* `tcUnit` is the unit index; the type keeps it within `0..7`, the indices for
  which the constructor binds `regs` and `irqn`.
* `regs` is the register block `*this->regs`.
* `nvicEnabled`, `nvicPending` are the enable and pending bits of `this->irqn`.
* `mclkMask`, `pchctrl` are the unit's `MCLK` bus-clock bit and `GCLK->PCHCTRL` entry.
* `gclk`, `nanoseconds`, `isrCallback`, `isrContext` are the private members.
* `invoked` is the trace of callback invocations, oldest first, each recorded
  as (function pointer, argument). -/
structure SAMD51TC where
  tcUnit : Fin 8
  regs : TcCount16
  nvicEnabled : Bool
  nvicPending : Bool
  mclkMask : Bool
  pchctrl : Nat
  gclk : GCLKDescription
  nanoseconds : Nat
  isrCallback : Ptr
  isrContext : Ptr
  invoked : List (Ptr × Ptr)
  deriving DecidableEq, Repr

/-- Modelled from the spec: a busy-poll `while(regs->SYNCBUSY.bit.x);` on a bit the
hardware keeps set for `n` more polls; it leaves the loop once the bit reads clear. -/
def syncWait : Nat → Nat
  | 0 => 0
  | n + 1 => syncWait n

/-- Constructor `SAMD51TC(tcUnit)`: binds the unit to its hardware (given here by its
current contents) and sets `isrCallback = nullptr`, `nanoseconds = 0`,
`gclk = GCLK_1M`, `isrContext = nullptr`. -/
def SAMD51TC.new (tcUnit : Fin 8) (regs : TcCount16) (nvicEnabled nvicPending mclkMask : Bool)
    (pchctrl : Nat) : SAMD51TC :=
  { tcUnit := tcUnit, regs := regs, nvicEnabled := nvicEnabled, nvicPending := nvicPending,
    mclkMask := mclkMask, pchctrl := pchctrl, gclk := GCLK_1M, nanoseconds := 0,
    isrCallback := nullptr, isrContext := nullptr, invoked := [] }

/-- Method `configureClock(gclk_id)`: every case of the switch sets the unit's own `MCLK` mask bit
and writes `GCLK_PCHCTRL_GEN(gclk_id) | GCLK_PCHCTRL_CHEN` to the unit's `PCHCTRL` entry. -/
def configureClock (hw : Samd) (tc : SAMD51TC) (gclk_id : Nat) : SAMD51TC :=
  { tc with mclkMask := true
            pchctrl := hw.GCLK_PCHCTRL_GEN (gclk_id % 2 ^ 8) ||| hw.GCLK_PCHCTRL_CHEN }

/-- Method `setPeriod(nanoseconds)` with a `uint64_t` argument. -/
def setPeriod (tc : SAMD51TC) (nanoseconds : Nat) : SAMD51TC :=
  { tc with nanoseconds := nanoseconds % 2 ^ 64 }

/-- Method `initialize(nanoseconds, gclk)` with a `uint32_t` period: store the descriptor, configure
the clock, software-reset the register block and wait for the reset, store the period. -/
def initializeTC (hw : Samd) (tc : SAMD51TC) (nanoseconds : Nat) (gclk : GCLKDescription) :
    SAMD51TC :=
  let tc := { tc with gclk := gclk }
  let tc := configureClock hw tc gclk.id
  let tc := { tc with regs := { hw.powerOn with SYNCBUSY_SWRST := hw.syncLatency } }
  let tc := { tc with regs := { tc.regs with SYNCBUSY_SWRST := syncWait tc.regs.SYNCBUSY_SWRST } }
  setPeriod tc (nanoseconds % 2 ^ 32)

/-- The array `prescaler_shifts` of `start()`. -/
def prescaler_shifts : List Nat := [0, 1, 2, 3, 4, 6, 8, 10]

/-- The first statement of `start()` that computes:
`base_compare_value = nanoseconds * gclk.frequency / 1000000000ul` in 64-bit unsigned arithmetic. -/
def base_compare_value (tc : SAMD51TC) : Nat :=
  (tc.nanoseconds * tc.gclk.frequency) % 2 ^ 64 / 1000000000

/-- The `for` loop of `start()`, entered at `index` with `shifts` the entries
`prescaler_shifts[index..]` still to be tried.  On the first entry whose shifted
value is at most 65535 the loop writes `PRESCALER` (a 3-bit field) and `CC[0]`
(a 16-bit register, whose write raises `SYNCBUSY.CC0`) and breaks; when the
entries are exhausted nothing is written. -/
def startLoop (hw : Samd) (base : Nat) (regs : TcCount16) : Nat → List Nat → TcCount16
  | _, [] => regs
  | index, shift :: shifts =>
    let compare_value := base >>> shift
    if compare_value ≤ 65535 then
      { regs with CTRLA_PRESCALER := index % 2 ^ 3
                  CC0 := (if compare_value > 0 then compare_value - 1 else 0) % 2 ^ 16
                  SYNCBUSY_CC0 := hw.syncLatency }
    else
      startLoop hw base regs (index + 1) shifts

/-- Method `start()`. -/
def start (hw : Samd) (tc : SAMD51TC) : SAMD51TC :=
  -- CTRLA.bit.ENABLE = 0; while(SYNCBUSY.bit.ENABLE);
  let r := { tc.regs with CTRLA_ENABLE := false, SYNCBUSY_ENABLE := hw.syncLatency }
  let r := { r with SYNCBUSY_ENABLE := syncWait r.SYNCBUSY_ENABLE }
  -- COUNT.reg = 0; while(SYNCBUSY.bit.COUNT);
  let r := { r with COUNT := 0, SYNCBUSY_COUNT := hw.syncLatency }
  let r := { r with SYNCBUSY_COUNT := syncWait r.SYNCBUSY_COUNT }
  -- prescaler and compare value; while(SYNCBUSY.bit.CC0);
  let r := startLoop hw (base_compare_value tc) r 0 prescaler_shifts
  let r := { r with SYNCBUSY_CC0 := syncWait r.SYNCBUSY_CC0 }
  -- WAVE.bit.WAVEGEN = MFRQ; INTENSET.bit.MC0 = 1; NVIC_EnableIRQ(irqn);
  let r := { r with WAVE_WAVEGEN := hw.TC_WAVE_WAVEGEN_MFRQ_Val }
  let r := { r with INTEN_MC0 := true }
  let tc := { tc with regs := r, nvicEnabled := true }
  -- CTRLA.bit.MODE = COUNT16; CTRLA.bit.ENABLE = 1; while(SYNCBUSY.bit.ENABLE);
  let r := { tc.regs with CTRLA_MODE := hw.TC_CTRLA_MODE_COUNT16_Val }
  let r := { r with CTRLA_ENABLE := true, SYNCBUSY_ENABLE := hw.syncLatency }
  let r := { r with SYNCBUSY_ENABLE := syncWait r.SYNCBUSY_ENABLE }
  -- CTRLBSET.bit.CMD = RETRIGGER; while(SYNCBUSY.bit.CTRLB);
  let r := { r with CTRLBSET_CMD := hw.TC_CTRLBCLR_CMD_RETRIGGER_Val,
                    SYNCBUSY_CTRLB := hw.syncLatency }
  let r := { r with SYNCBUSY_CTRLB := syncWait r.SYNCBUSY_CTRLB }
  { tc with regs := r }

/-- Method `stop()`: clear `ENABLE` and wait, disable the match interrupt source through
`INTENCLR`, then `NVIC_DisableIRQ` and `NVIC_ClearPendingIRQ` on the unit's line. -/
def stop (hw : Samd) (tc : SAMD51TC) : SAMD51TC :=
  let r := { tc.regs with CTRLA_ENABLE := false, SYNCBUSY_ENABLE := hw.syncLatency }
  let r := { r with SYNCBUSY_ENABLE := syncWait r.SYNCBUSY_ENABLE }
  let r := { r with INTEN_MC0 := false }
  { tc with regs := r, nvicEnabled := false, nvicPending := false }

/-- Method `restart()`: issue the retrigger command and wait for it. -/
def restart (hw : Samd) (tc : SAMD51TC) : SAMD51TC :=
  let r := { tc.regs with CTRLBSET_CMD := hw.TC_CTRLBCLR_CMD_RETRIGGER_Val,
                          SYNCBUSY_CTRLB := hw.syncLatency }
  let r := { r with SYNCBUSY_CTRLB := syncWait r.SYNCBUSY_CTRLB }
  { tc with regs := r }

/-- Method `attachInterrupt(isrCallback, context)`: store context, store callback, `start()`. -/
def attachInterrupt (hw : Samd) (tc : SAMD51TC) (isrCallback : Ptr) (context : Ptr) : SAMD51TC :=
  let tc := { tc with isrContext := context }
  let tc := { tc with isrCallback := isrCallback }
  start hw tc

/-- Method `detachInterrupt()`: `stop()`, then callback and context are set to `nullptr`. -/
def detachInterrupt (hw : Samd) (tc : SAMD51TC) : SAMD51TC :=
  let tc := stop hw tc
  let tc := { tc with isrCallback := nullptr }
  { tc with isrContext := nullptr }

/-- Method `processIsr()`.  `INTFLAG.MC0` is write-one-to-clear, so the assignment
`INTFLAG.bit.MC0 = 1` leaves the flag clear.  The call `isrCallback(isrContext)`
is recorded in the trace; what the caller-supplied function does is outside
the driver. -/
def processIsr (tc : SAMD51TC) : SAMD51TC :=
  if tc.regs.INTFLAG_MC0 then
    let tc := { tc with regs := { tc.regs with INTFLAG_MC0 := false } }
    if tc.isrCallback ≠ nullptr then
      { tc with invoked := tc.invoked ++ [(tc.isrCallback, tc.isrContext)] }
    else tc
  else tc

/-- Static method `SAMD51TCInterruptHelper::callProcessIsr(tc)`, the body of every `TCn_Handler`. -/
def callProcessIsr (tc : SAMD51TC) : SAMD51TC :=
  processIsr tc

/-- Modelled from the spec: the hardware event "match flag set", the counter reaching
the compare value; it raises `INTFLAG.MC0` and touches nothing else. -/
def matchEvent (tc : SAMD51TC) : SAMD51TC :=
  { tc with regs := { tc.regs with INTFLAG_MC0 := true } }

/-- The ideal compare value of the specification: `floor(P * F / 10^9)` over the naturals. -/
def idealValue (P F : Nat) : Nat :=
  P * F / 1000000000

/-- The selection the specification describes: `index` is a position of the shift table,
the shift found there brings `v` to at most 65535, and no earlier entry does. -/
def IsSelected (v index : Nat) : Prop :=
  index < prescaler_shifts.length ∧
  v >>> prescaler_shifts.getD index 0 ≤ 65535 ∧
  ∀ j, j < index → 65535 < v >>> prescaler_shifts.getD j 0

/-- A concrete `samd.h`: the SAMD51 values of the constants, an all-zero power-on register block
and a synchronisation latency of three polls. -/
def samd51 : Samd :=
  { TC_WAVE_WAVEGEN_MFRQ_Val := 1
    TC_CTRLA_MODE_COUNT16_Val := 0
    TC_CTRLBCLR_CMD_RETRIGGER_Val := 1
    GCLK_PCHCTRL_GEN := fun x => x % 16
    GCLK_PCHCTRL_CHEN := 64
    powerOn := ⟨false, 0, 0, 0, 0, false, false, 0, 0, 0, 0, 0, 0, 0⟩
    syncLatency := 3 }

/-- The unit `TimerTC0` as constructed at program start, over power-on hardware. -/
def TimerTC0 : SAMD51TC :=
  SAMD51TC.new 0 samd51.powerOn false false false 0

/-- The unit `TimerTC0` after `initialize()` with its default arguments: 1 ms on the 1 MHz clock. -/
def tc1ms : SAMD51TC :=
  initializeTC samd51 TimerTC0 1000000 GCLK_1M

/-- The unit `TimerTC0` after `initialize(1000000000, GCLK_1M)`: 1 s on the 1 MHz clock. -/
def tc1s : SAMD51TC :=
  initializeTC samd51 TimerTC0 1000000000 GCLK_1M

/-- The unit `TimerTC0` after `initialize()` and `setPeriod(1000000000000)`: 1000 s on the 1 MHz clock. -/
def tc1000s : SAMD51TC :=
  setPeriod (initializeTC samd51 TimerTC0 1000000 GCLK_1M) 1000000000000

/-- The unit `tc1ms` after `attachInterrupt(cb, ctx)` with `cb = 0x2000` and `ctx = 0x3000`. -/
def tcAttached : SAMD51TC :=
  attachInterrupt samd51 tc1ms 8192 12288

/-- The unit `tcAttached` after a later `initialize(2000000, GCLK_1M)` and `start()`,
with no further `attachInterrupt`. -/
def tcReinitialized : SAMD51TC :=
  start samd51 (initializeTC samd51 tcAttached 2000000 GCLK_1M)

/-- The unit `tc1s` after `start()`: running with a period of 1 s on the 1 MHz clock. -/
def tc1sStarted : SAMD51TC :=
  start samd51 tc1s

end SAMD51

namespace SAMD51

/-! ## The selection loop -/

/-- The busy-poll always ends with the bit clear. -/
theorem syncWait_eq_zero (n : Nat) : syncWait n = 0 := by
  induction n with
  | zero => rfl
  | succ n ih => simpa [syncWait] using ih

/-- What the loop does, entered at `index` on the remaining entries `shifts`: either some
entry `k` is the first whose shifted value is at most 65535 and the two registers
are written from it, or every entry leaves more than 65535 and the block is untouched. -/
theorem startLoop_spec (hw : Samd) (v : Nat) (regs : TcCount16) :
    ∀ (shifts : List Nat) (index : Nat),
      (∃ k, k < shifts.length ∧ v >>> shifts.getD k 0 ≤ 65535 ∧
          (∀ j, j < k → 65535 < v >>> shifts.getD j 0) ∧
          startLoop hw v regs index shifts =
            { regs with CTRLA_PRESCALER := (index + k) % 2 ^ 3
                        CC0 := (if v >>> shifts.getD k 0 > 0
                                then v >>> shifts.getD k 0 - 1 else 0) % 2 ^ 16
                        SYNCBUSY_CC0 := hw.syncLatency }) ∨
      ((∀ j, j < shifts.length → 65535 < v >>> shifts.getD j 0) ∧
          startLoop hw v regs index shifts = regs) := by
  intro shifts
  induction shifts with
  | nil =>
    intro index
    right
    exact ⟨fun j hj => absurd hj (Nat.not_lt_zero j), rfl⟩
  | cons sh rest ih =>
    intro index
    by_cases hc : v >>> sh ≤ 65535
    · left
      refine ⟨0, by simp, by simpa using hc, fun j hj => absurd hj (Nat.not_lt_zero j), ?_⟩
      simp [startLoop, hc]
    · have hgt : 65535 < v >>> sh := Nat.lt_of_not_le hc
      rcases ih (index + 1) with ⟨k, hk, hle, hfirst, heq⟩ | ⟨hall, heq⟩
      · left
        refine ⟨k + 1, by simpa using hk, by simpa using hle, ?_, ?_⟩
        · intro j hj
          cases j with
          | zero => simpa using hgt
          | succ j => simpa using hfirst j (by omega)
        · simp only [startLoop, hc, if_false, heq, List.getD_cons_succ]
          have : index + 1 + k = index + (k + 1) := by omega
          rw [this]
      · right
        refine ⟨?_, ?_⟩
        · intro j hj
          cases j with
          | zero => simpa using hgt
          | succ j => simpa using hall j (by simpa using hj)
        · simp only [startLoop, hc, if_false, heq]

/-- The register block on which `start()` enters its loop: peripheral disabled, counter zeroed,
both writes synchronised. -/
theorem start_regs (hw : Samd) (tc : SAMD51TC) :
    (start hw tc).regs.CTRLA_PRESCALER =
        (startLoop hw (base_compare_value tc)
          { tc.regs with CTRLA_ENABLE := false, SYNCBUSY_ENABLE := syncWait hw.syncLatency,
                         COUNT := 0, SYNCBUSY_COUNT := syncWait hw.syncLatency }
          0 prescaler_shifts).CTRLA_PRESCALER ∧
      (start hw tc).regs.CC0 =
        (startLoop hw (base_compare_value tc)
          { tc.regs with CTRLA_ENABLE := false, SYNCBUSY_ENABLE := syncWait hw.syncLatency,
                         COUNT := 0, SYNCBUSY_COUNT := syncWait hw.syncLatency }
          0 prescaler_shifts).CC0 :=
  ⟨rfl, rfl⟩

/-- Shifting by a table entry leaves at least what shifting by 10 leaves. -/
theorem shift_table_ge (v k : Nat) (hk : k < prescaler_shifts.length) :
    v >>> 10 ≤ v >>> prescaler_shifts.getD k 0 := by
  have h8 : k < 8 := hk
  simp only [Nat.shiftRight_eq_div_pow]
  interval_cases k <;> simp [prescaler_shifts] <;> omega

/-- When some table entry is admissible, `start()` programs the first admissible one. -/
theorem start_selected (hw : Samd) (tc : SAMD51TC)
    (h : base_compare_value tc >>> 10 ≤ 65535) :
    ∃ index, IsSelected (base_compare_value tc) index ∧
      (start hw tc).regs.CTRLA_PRESCALER = index ∧
      (start hw tc).regs.CC0 =
        base_compare_value tc >>> prescaler_shifts.getD index 0 - 1 := by
  obtain ⟨hp, hc⟩ := start_regs hw tc
  rcases startLoop_spec hw (base_compare_value tc)
      { tc.regs with CTRLA_ENABLE := false, SYNCBUSY_ENABLE := syncWait hw.syncLatency,
                     COUNT := 0, SYNCBUSY_COUNT := syncWait hw.syncLatency }
      prescaler_shifts 0 with ⟨k, hk, hle, hfirst, heq⟩ | ⟨hall, _⟩
  · refine ⟨k, ⟨hk, hle, hfirst⟩, ?_, ?_⟩
    · rw [hp, heq]
      have h8 : k < 8 := hk
      show (0 + k) % 2 ^ 3 = k
      omega
    · rw [hc, heq]
      show (if base_compare_value tc >>> prescaler_shifts.getD k 0 > 0
            then base_compare_value tc >>> prescaler_shifts.getD k 0 - 1 else 0) % 2 ^ 16 = _
      split <;> omega
  · exfalso
    have := hall 7 (by decide)
    have h10 : prescaler_shifts.getD 7 0 = 10 := by decide
    rw [h10] at this
    omega

/-- When not even the shift by 10 is admissible, `start()` leaves both registers as they were. -/
theorem start_unselected (hw : Samd) (tc : SAMD51TC)
    (h : 65535 < base_compare_value tc >>> 10) :
    (start hw tc).regs.CTRLA_PRESCALER = tc.regs.CTRLA_PRESCALER ∧
      (start hw tc).regs.CC0 = tc.regs.CC0 := by
  obtain ⟨hp, hc⟩ := start_regs hw tc
  rcases startLoop_spec hw (base_compare_value tc)
      { tc.regs with CTRLA_ENABLE := false, SYNCBUSY_ENABLE := syncWait hw.syncLatency,
                     COUNT := 0, SYNCBUSY_COUNT := syncWait hw.syncLatency }
      prescaler_shifts 0 with ⟨k, hk, hle, _, _⟩ | ⟨_, heq⟩
  · exfalso
    have := shift_table_ge (base_compare_value tc) k hk
    omega
  · rw [hp, hc, heq]
    exact ⟨rfl, rfl⟩

/-- The table is increasing, so the first admissible entry is the smallest admissible shift. -/
theorem selected_is_least (v index : Nat) (h : IsSelected v index) :
    ∀ t, t ∈ prescaler_shifts → v >>> t ≤ 65535 → prescaler_shifts.getD index 0 ≤ t := by
  obtain ⟨hlt, _, hfirst⟩ := h
  have h8 : index < 8 := hlt
  intro t ht hle
  by_contra hcon
  have hcon : t < prescaler_shifts.getD index 0 := Nat.lt_of_not_le hcon
  obtain ⟨j, hj, rfl⟩ : ∃ j, j < 8 ∧ t = prescaler_shifts.getD j 0 := by
    simp only [prescaler_shifts, List.mem_cons, List.mem_singleton, List.not_mem_nil,
      or_false] at ht
    rcases ht with rfl | rfl | rfl | rfl | rfl | rfl | rfl | rfl
    · exact ⟨0, by decide, by decide⟩
    · exact ⟨1, by decide, by decide⟩
    · exact ⟨2, by decide, by decide⟩
    · exact ⟨3, by decide, by decide⟩
    · exact ⟨4, by decide, by decide⟩
    · exact ⟨5, by decide, by decide⟩
    · exact ⟨6, by decide, by decide⟩
    · exact ⟨7, by decide, by decide⟩
  have hji : j < index := by
    by_contra hge
    have hge : index ≤ j := Nat.le_of_not_lt hge
    interval_cases index <;> interval_cases j <;> simp [prescaler_shifts] at hcon
  have := hfirst j hji
  omega

/-- Without wrap-around the value computed by `start()` is the ideal value of the specification. -/
theorem base_compare_value_eq (tc : SAMD51TC)
    (h : tc.nanoseconds * tc.gclk.frequency < 2 ^ 64) :
    base_compare_value tc = idealValue tc.nanoseconds tc.gclk.frequency := by
  unfold base_compare_value idealValue
  rw [Nat.mod_eq_of_lt h]

/-- An ideal value below `65536 * 1024` comes from a product that fits 64 bits. -/
theorem product_fits (P F : Nat) (h : idealValue P F < 65536 * 1024) : P * F < 2 ^ 64 := by
  unfold idealValue at h
  omega

/-! ## Prescaler and compare value programmed by `start()` -/

/-- C1: whenever the ideal value `floor(P * F / 10^9)` of the stored period `P` and clock
frequency `F` is at most `65535 * 1024`, `start()` takes the first entry `s` of the
table `0,1,2,3,4,6,8,10` whose shifted value is at most 65535 (every earlier entry
leaves more than 65535, and `s` is the smallest admissible shift of the table),
writes the table index of `s`, a number below 8, to `PRESCALER`, and writes
`max((v >> s) - 1, 0)`, computed over the integers, to `CC[0]`. -/
theorem start_programs_smallest_shift (hw : Samd) (tc : SAMD51TC)
    (h : idealValue tc.nanoseconds tc.gclk.frequency ≤ 65535 * 1024) :
    ∃ index s, index < 8 ∧ prescaler_shifts[index]? = some s ∧
      idealValue tc.nanoseconds tc.gclk.frequency >>> s ≤ 65535 ∧
      (∀ j, j < index →
        65535 < idealValue tc.nanoseconds tc.gclk.frequency >>> prescaler_shifts.getD j 0) ∧
      (∀ t, t ∈ prescaler_shifts →
        idealValue tc.nanoseconds tc.gclk.frequency >>> t ≤ 65535 → s ≤ t) ∧
      (start hw tc).regs.CTRLA_PRESCALER = index ∧
      ((start hw tc).regs.CC0 : Int) =
        max (((idealValue tc.nanoseconds tc.gclk.frequency >>> s : Nat) : Int) - 1) 0 := by
  have hfit : tc.nanoseconds * tc.gclk.frequency < 2 ^ 64 :=
    product_fits _ _ (by omega)
  have hv := base_compare_value_eq tc hfit
  have h10 : base_compare_value tc >>> 10 ≤ 65535 := by
    rw [hv, Nat.shiftRight_eq_div_pow]
    omega
  obtain ⟨index, hsel, hp, hc⟩ := start_selected hw tc h10
  rw [hv] at hsel hc
  have h8 : index < 8 := hsel.1
  refine ⟨index, prescaler_shifts.getD index 0, h8, ?_, hsel.2.1, hsel.2.2,
    selected_is_least _ _ hsel, hp, ?_⟩
  · interval_cases index <;> rfl
  · rw [hc]
    omega

/-- C1 at one second on the 1 MHz clock. -/
theorem start_programs_smallest_shift_witness :
    idealValue tc1s.nanoseconds tc1s.gclk.frequency ≤ 65535 * 1024 ∧
    ∃ index s, index < 8 ∧ prescaler_shifts[index]? = some s ∧
      idealValue tc1s.nanoseconds tc1s.gclk.frequency >>> s ≤ 65535 ∧
      (∀ j, j < index →
        65535 < idealValue tc1s.nanoseconds tc1s.gclk.frequency >>> prescaler_shifts.getD j 0) ∧
      (∀ t, t ∈ prescaler_shifts →
        idealValue tc1s.nanoseconds tc1s.gclk.frequency >>> t ≤ 65535 → s ≤ t) ∧
      (start samd51 tc1s).regs.CTRLA_PRESCALER = index ∧
      ((start samd51 tc1s).regs.CC0 : Int) =
        max (((idealValue tc1s.nanoseconds tc1s.gclk.frequency >>> s : Nat) : Int) - 1) 0 :=
  ⟨by decide, start_programs_smallest_shift samd51 tc1s (by decide)⟩

/-- C8: when the value computed by `start()` still exceeds 65535 after the largest shift, 10,
the loop ends without a write: `PRESCALER` and `CC[0]` after `start()` are what
they were before. -/
theorem start_falls_through (hw : Samd) (tc : SAMD51TC)
    (h : 65535 < base_compare_value tc >>> 10) :
    (start hw tc).regs.CTRLA_PRESCALER = tc.regs.CTRLA_PRESCALER ∧
      (start hw tc).regs.CC0 = tc.regs.CC0 :=
  start_unselected hw tc h

/-- C8 at 1000 seconds on the 1 MHz clock. -/
theorem start_falls_through_witness :
    65535 < base_compare_value tc1000s >>> 10 ∧
    (start samd51 tc1000s).regs.CTRLA_PRESCALER = tc1000s.regs.CTRLA_PRESCALER ∧
      (start samd51 tc1000s).regs.CC0 = tc1000s.regs.CC0 :=
  ⟨by decide, start_falls_through samd51 tc1000s (by decide)⟩

/-- C2, as stated, fails: on the unit configured with the 1 MHz clock and period 1,000,000 ns
`start()` does not compute 1,000,000, does not select shift 4 and does not write 62,499. -/
theorem example_1ms_refuted :
    ¬ (base_compare_value tc1ms = 1000000 ∧
        (start samd51 tc1ms).regs.CTRLA_PRESCALER = 4 ∧
        (start samd51 tc1ms).regs.CC0 = 62499) := by
  decide

/-- C2, amended: after `initialize(1000000, GCLK_1M)` the value computed by `start()` is 1,000,
the first table entry (shift 0, index 0) is selected and `CC[0]` receives 999.
The figures 1,000,000, shift 4 (index 4) giving 62,500, and 62,499 are those of
`initialize(1000000000, GCLK_1M)`, a period of one second. -/
theorem example_1ms_1MHz (hw : Samd) (tc : SAMD51TC) :
    (base_compare_value (initializeTC hw tc 1000000 GCLK_1M) = 1000 ∧
      IsSelected 1000 0 ∧ prescaler_shifts[0]? = some 0 ∧
      (start hw (initializeTC hw tc 1000000 GCLK_1M)).regs.CTRLA_PRESCALER = 0 ∧
      (start hw (initializeTC hw tc 1000000 GCLK_1M)).regs.CC0 = 999) ∧
    (base_compare_value (initializeTC hw tc 1000000000 GCLK_1M) = 1000000 ∧
      IsSelected 1000000 4 ∧ prescaler_shifts[4]? = some 4 ∧ 1000000 >>> 4 = 62500 ∧
      (start hw (initializeTC hw tc 1000000000 GCLK_1M)).regs.CTRLA_PRESCALER = 4 ∧
      (start hw (initializeTC hw tc 1000000000 GCLK_1M)).regs.CC0 = 62499) := by
  have hsel0 : IsSelected 1000 0 :=
    ⟨by decide, by decide, fun j hj => absurd hj (Nat.not_lt_zero j)⟩
  have hsel4 : IsSelected 1000000 4 := by
    refine ⟨by decide, by decide, fun j hj => ?_⟩
    interval_cases j <;> decide
  have hn0 : (initializeTC hw tc 1000000 GCLK_1M).nanoseconds = 1000000 := by
    show 1000000 % 2 ^ 32 % 2 ^ 64 = 1000000
    norm_num
  have hn4 : (initializeTC hw tc 1000000000 GCLK_1M).nanoseconds = 1000000000 := by
    show 1000000000 % 2 ^ 32 % 2 ^ 64 = 1000000000
    norm_num
  have hf0 : (initializeTC hw tc 1000000 GCLK_1M).gclk.frequency = 1000000 := rfl
  have hf4 : (initializeTC hw tc 1000000000 GCLK_1M).gclk.frequency = 1000000 := rfl
  have hb0 : base_compare_value (initializeTC hw tc 1000000 GCLK_1M) = 1000 := by
    rw [base_compare_value, hn0, hf0]
    norm_num
  have hb4 : base_compare_value (initializeTC hw tc 1000000000 GCLK_1M) = 1000000 := by
    rw [base_compare_value, hn4, hf4]
    norm_num
  refine ⟨⟨hb0, hsel0, rfl, ?_, ?_⟩, ⟨hb4, hsel4, rfl, rfl, ?_, ?_⟩⟩
  · rw [(start_regs hw _).1, hb0]; simp [startLoop, prescaler_shifts]
  · rw [(start_regs hw _).2, hb0]; simp [startLoop, prescaler_shifts]
  · rw [(start_regs hw _).1, hb4]; simp [startLoop, prescaler_shifts]
  · rw [(start_regs hw _).2, hb4]; simp [startLoop, prescaler_shifts]

/-- C9: for every period `P` below `2^32` passed to `initialize` with one of the two built-in
clock descriptors, the product formed by `start()` stays below `2^64`, the loop
selects a table entry, of shift at most 8 on the 1 MHz clock and at most 2 on the
32.768 kHz clock, and `CC[0]` receives the shifted value less one, at most 65534. -/
theorem builtin_clocks_always_select (hw : Samd) (tc : SAMD51TC) (P : Nat) (hP : P < 2 ^ 32) :
    ((initializeTC hw tc P GCLK_1M).nanoseconds = P ∧
      (initializeTC hw tc P GCLK_1M).nanoseconds *
        (initializeTC hw tc P GCLK_1M).gclk.frequency < 2 ^ 64 ∧
      ∃ index, IsSelected (base_compare_value (initializeTC hw tc P GCLK_1M)) index ∧
        prescaler_shifts.getD index 0 ≤ 8 ∧
        (start hw (initializeTC hw tc P GCLK_1M)).regs.CTRLA_PRESCALER = index ∧
        (start hw (initializeTC hw tc P GCLK_1M)).regs.CC0 =
          base_compare_value (initializeTC hw tc P GCLK_1M) >>>
            prescaler_shifts.getD index 0 - 1 ∧
        (start hw (initializeTC hw tc P GCLK_1M)).regs.CC0 ≤ 65534) ∧
    ((initializeTC hw tc P GCLK_XOSC32K).nanoseconds = P ∧
      (initializeTC hw tc P GCLK_XOSC32K).nanoseconds *
        (initializeTC hw tc P GCLK_XOSC32K).gclk.frequency < 2 ^ 64 ∧
      ∃ index, IsSelected (base_compare_value (initializeTC hw tc P GCLK_XOSC32K)) index ∧
        prescaler_shifts.getD index 0 ≤ 2 ∧
        (start hw (initializeTC hw tc P GCLK_XOSC32K)).regs.CTRLA_PRESCALER = index ∧
        (start hw (initializeTC hw tc P GCLK_XOSC32K)).regs.CC0 =
          base_compare_value (initializeTC hw tc P GCLK_XOSC32K) >>>
            prescaler_shifts.getD index 0 - 1 ∧
        (start hw (initializeTC hw tc P GCLK_XOSC32K)).regs.CC0 ≤ 65534) := by
  have hP' : P < 4294967296 := by simpa using hP
  have hn1 : (initializeTC hw tc P GCLK_1M).nanoseconds = P := by
    simp only [initializeTC, setPeriod, configureClock]
    omega
  have hn2 : (initializeTC hw tc P GCLK_XOSC32K).nanoseconds = P := by
    simp only [initializeTC, setPeriod, configureClock]
    omega
  have hf1 : (initializeTC hw tc P GCLK_1M).gclk.frequency = 1000000 := rfl
  have hf2 : (initializeTC hw tc P GCLK_XOSC32K).gclk.frequency = 32768 := rfl
  have hb1 : base_compare_value (initializeTC hw tc P GCLK_1M) = P * 1000000 / 1000000000 := by
    rw [base_compare_value, hn1, hf1, Nat.mod_eq_of_lt (by omega)]
  have hb2 : base_compare_value (initializeTC hw tc P GCLK_XOSC32K)
      = P * 32768 / 1000000000 := by
    rw [base_compare_value, hn2, hf2, Nat.mod_eq_of_lt (by omega)]
  refine ⟨⟨hn1, by rw [hn1, hf1]; omega, ?_⟩, ⟨hn2, by rw [hn2, hf2]; omega, ?_⟩⟩
  · have h10 : base_compare_value (initializeTC hw tc P GCLK_1M) >>> 10 ≤ 65535 := by
      rw [hb1, Nat.shiftRight_eq_div_pow]; omega
    obtain ⟨index, hsel, hp, hc⟩ := start_selected hw _ h10
    refine ⟨index, hsel, ?_, hp, hc, ?_⟩
    · obtain ⟨hlt, _, hfirst⟩ := hsel
      have h8 : index < 8 := hlt
      rw [hb1] at hfirst
      interval_cases index <;> simp [prescaler_shifts]
      have := hfirst 6 (by decide)
      simp [prescaler_shifts, Nat.shiftRight_eq_div_pow] at this
      omega
    · have := hsel.2.1
      omega
  · have h10 : base_compare_value (initializeTC hw tc P GCLK_XOSC32K) >>> 10 ≤ 65535 := by
      rw [hb2, Nat.shiftRight_eq_div_pow]; omega
    obtain ⟨index, hsel, hp, hc⟩ := start_selected hw _ h10
    refine ⟨index, hsel, ?_, hp, hc, ?_⟩
    · obtain ⟨hlt, _, hfirst⟩ := hsel
      have h8 : index < 8 := hlt
      rw [hb2] at hfirst
      have h2 := hfirst 2
      simp [prescaler_shifts, Nat.shiftRight_eq_div_pow] at h2
      interval_cases index <;> simp [prescaler_shifts] <;> omega
    · have := hsel.2.1
      omega

/-- C9 at the largest 32-bit period, 4294967295 ns, on the unit `TimerTC0`. -/
theorem builtin_clocks_always_select_witness :
    (4294967295 < 2 ^ 32) ∧
    ((initializeTC samd51 TimerTC0 4294967295 GCLK_1M).nanoseconds = 4294967295 ∧
      (initializeTC samd51 TimerTC0 4294967295 GCLK_1M).nanoseconds *
        (initializeTC samd51 TimerTC0 4294967295 GCLK_1M).gclk.frequency < 2 ^ 64 ∧
      ∃ index,
        IsSelected (base_compare_value (initializeTC samd51 TimerTC0 4294967295 GCLK_1M)) index ∧
        prescaler_shifts.getD index 0 ≤ 8 ∧
        (start samd51 (initializeTC samd51 TimerTC0 4294967295 GCLK_1M)).regs.CTRLA_PRESCALER
          = index ∧
        (start samd51 (initializeTC samd51 TimerTC0 4294967295 GCLK_1M)).regs.CC0 =
          base_compare_value (initializeTC samd51 TimerTC0 4294967295 GCLK_1M) >>>
            prescaler_shifts.getD index 0 - 1 ∧
        (start samd51 (initializeTC samd51 TimerTC0 4294967295 GCLK_1M)).regs.CC0 ≤ 65534) ∧
    ((initializeTC samd51 TimerTC0 4294967295 GCLK_XOSC32K).nanoseconds = 4294967295 ∧
      (initializeTC samd51 TimerTC0 4294967295 GCLK_XOSC32K).nanoseconds *
        (initializeTC samd51 TimerTC0 4294967295 GCLK_XOSC32K).gclk.frequency < 2 ^ 64 ∧
      ∃ index,
        IsSelected (base_compare_value (initializeTC samd51 TimerTC0 4294967295 GCLK_XOSC32K))
          index ∧
        prescaler_shifts.getD index 0 ≤ 2 ∧
        (start samd51 (initializeTC samd51 TimerTC0 4294967295 GCLK_XOSC32K)).regs.CTRLA_PRESCALER
          = index ∧
        (start samd51 (initializeTC samd51 TimerTC0 4294967295 GCLK_XOSC32K)).regs.CC0 =
          base_compare_value (initializeTC samd51 TimerTC0 4294967295 GCLK_XOSC32K) >>>
            prescaler_shifts.getD index 0 - 1 ∧
        (start samd51 (initializeTC samd51 TimerTC0 4294967295 GCLK_XOSC32K)).regs.CC0 ≤ 65534) :=
  ⟨by decide, builtin_clocks_always_select samd51 TimerTC0 4294967295 (by decide)⟩

/-- C10: when the ideal value `v = floor(P * F / 10^9)` lies in `1 ≤ v < 65536 * 1024`, with `s`
the shift `start()` selects and `N` the value it writes to `CC[0]`, the realised
count `T = (N + 1) * 2^s` of undivided ticks satisfies `T ≤ v < T + 2^s`; and
whenever `s > 0`, `N + 1 ≥ 16384` and the shortfall `v - T` is below `v / 2^14`. -/
theorem start_period_accuracy (hw : Samd) (tc : SAMD51TC)
    (h1 : 1 ≤ idealValue tc.nanoseconds tc.gclk.frequency)
    (h2 : idealValue tc.nanoseconds tc.gclk.frequency < 65536 * 1024) :
    ∃ index s, IsSelected (idealValue tc.nanoseconds tc.gclk.frequency) index ∧
      prescaler_shifts[index]? = some s ∧
      (start hw tc).regs.CTRLA_PRESCALER = index ∧
      ((start hw tc).regs.CC0 + 1) * 2 ^ s ≤ idealValue tc.nanoseconds tc.gclk.frequency ∧
      idealValue tc.nanoseconds tc.gclk.frequency < ((start hw tc).regs.CC0 + 1) * 2 ^ s + 2 ^ s ∧
      (0 < s → 16384 ≤ (start hw tc).regs.CC0 + 1 ∧
        (idealValue tc.nanoseconds tc.gclk.frequency - ((start hw tc).regs.CC0 + 1) * 2 ^ s)
          * 16384 < idealValue tc.nanoseconds tc.gclk.frequency) := by
  have hv := base_compare_value_eq tc (product_fits _ _ h2)
  have h10 : base_compare_value tc >>> 10 ≤ 65535 := by
    rw [hv, Nat.shiftRight_eq_div_pow]
    omega
  obtain ⟨index, hsel, hp, hc⟩ := start_selected hw tc h10
  rw [hv] at hsel hc
  generalize idealValue tc.nanoseconds tc.gclk.frequency = v at *
  generalize (start hw tc).regs.CC0 = N at *
  obtain ⟨hlt, hle, hfirst⟩ := id hsel
  have h8 : index < 8 := hlt
  have hprev : ∀ j, j + 1 = index → 65535 < v >>> prescaler_shifts.getD j 0 :=
    fun j hj => hfirst j (by omega)
  refine ⟨index, prescaler_shifts.getD index 0, hsel, ?_, hp, ?_⟩
  · interval_cases index <;> rfl
  · clear hsel hfirst hp h10 hv
    interval_cases index
    · simp [prescaler_shifts] at hc hle ⊢
      omega
    · have := hprev 0 rfl
      simp [prescaler_shifts, Nat.shiftRight_eq_div_pow] at hc hle this ⊢
      omega
    · have := hprev 1 rfl
      simp [prescaler_shifts, Nat.shiftRight_eq_div_pow] at hc hle this ⊢
      omega
    · have := hprev 2 rfl
      simp [prescaler_shifts, Nat.shiftRight_eq_div_pow] at hc hle this ⊢
      omega
    · have := hprev 3 rfl
      simp [prescaler_shifts, Nat.shiftRight_eq_div_pow] at hc hle this ⊢
      omega
    · have := hprev 4 rfl
      simp [prescaler_shifts, Nat.shiftRight_eq_div_pow] at hc hle this ⊢
      omega
    · have := hprev 5 rfl
      simp [prescaler_shifts, Nat.shiftRight_eq_div_pow] at hc hle this ⊢
      omega
    · have := hprev 6 rfl
      simp [prescaler_shifts, Nat.shiftRight_eq_div_pow] at hc hle this ⊢
      omega

/-- C10 at one second on the 1 MHz clock. -/
theorem start_period_accuracy_witness :
    (1 ≤ idealValue tc1s.nanoseconds tc1s.gclk.frequency ∧
      idealValue tc1s.nanoseconds tc1s.gclk.frequency < 65536 * 1024) ∧
    ∃ index s, IsSelected (idealValue tc1s.nanoseconds tc1s.gclk.frequency) index ∧
      prescaler_shifts[index]? = some s ∧
      (start samd51 tc1s).regs.CTRLA_PRESCALER = index ∧
      ((start samd51 tc1s).regs.CC0 + 1) * 2 ^ s ≤
        idealValue tc1s.nanoseconds tc1s.gclk.frequency ∧
      idealValue tc1s.nanoseconds tc1s.gclk.frequency <
        ((start samd51 tc1s).regs.CC0 + 1) * 2 ^ s + 2 ^ s ∧
      (0 < s → 16384 ≤ (start samd51 tc1s).regs.CC0 + 1 ∧
        (idealValue tc1s.nanoseconds tc1s.gclk.frequency -
            ((start samd51 tc1s).regs.CC0 + 1) * 2 ^ s)
          * 16384 < idealValue tc1s.nanoseconds tc1s.gclk.frequency) :=
  ⟨⟨by decide, by decide⟩, start_period_accuracy samd51 tc1s (by decide) (by decide)⟩

/-! ## Interrupt processing and attachment -/

/-- The driver's configuration operations make no callback invocation and leave the stored
callback and context alone. -/
theorem start_keeps_attachment (hw : Samd) (tc : SAMD51TC) :
    (start hw tc).isrCallback = tc.isrCallback ∧ (start hw tc).isrContext = tc.isrContext ∧
      (start hw tc).invoked = tc.invoked :=
  ⟨rfl, rfl, rfl⟩

/-- Processing a raised match flag: the flag reads clear afterwards and the trace grows by the
stored callback with the stored context when one is stored, by nothing otherwise. -/
theorem processIsr_matchEvent (tc : SAMD51TC) :
    (processIsr (matchEvent tc)).regs = { tc.regs with INTFLAG_MC0 := false } ∧
      (processIsr (matchEvent tc)).invoked =
        tc.invoked ++ (if tc.isrCallback ≠ nullptr then [(tc.isrCallback, tc.isrContext)] else []) ∧
      (processIsr (matchEvent tc)).isrCallback = tc.isrCallback ∧
      (processIsr (matchEvent tc)).isrContext = tc.isrContext := by
  by_cases hcb : tc.isrCallback = nullptr
  · simp [processIsr, matchEvent, hcb]
  · simp [processIsr, matchEvent, hcb]

/-- With the match flag clear the interrupt step is the identity. -/
theorem processIsr_flag_clear (tc : SAMD51TC) (h : tc.regs.INTFLAG_MC0 = false) :
    processIsr tc = tc := by
  simp [processIsr, h]

/-- C3: in every unit state, `processIsr` with the match flag set clears the flag, changes no
other register or member, and appends to the trace exactly one invocation
(stored callback, stored context) when a callback is stored and none when the
callback is `nullptr`; with the flag clear it returns the state unchanged.
Hence two consecutive `processIsr` calls after one match event add exactly what
the first one adds, and `callProcessIsr` is `processIsr`. -/
theorem processIsr_contract (tc : SAMD51TC) :
    (tc.regs.INTFLAG_MC0 = true →
      (processIsr tc).regs.INTFLAG_MC0 = false ∧
      (tc.isrCallback ≠ nullptr →
        processIsr tc =
          { tc with regs := { tc.regs with INTFLAG_MC0 := false }
                    invoked := tc.invoked ++ [(tc.isrCallback, tc.isrContext)] }) ∧
      (tc.isrCallback = nullptr →
        processIsr tc = { tc with regs := { tc.regs with INTFLAG_MC0 := false } })) ∧
    (tc.regs.INTFLAG_MC0 = false → processIsr tc = tc) ∧
    (processIsr (processIsr (matchEvent tc))).invoked =
      tc.invoked ++ (if tc.isrCallback ≠ nullptr then [(tc.isrCallback, tc.isrContext)] else []) ∧
    (processIsr (processIsr (matchEvent tc))).regs.INTFLAG_MC0 = false ∧
    callProcessIsr tc = processIsr tc := by
  refine ⟨fun h => ⟨?_, fun hcb => ?_, fun hcb => ?_⟩, processIsr_flag_clear tc, ?_, ?_, rfl⟩
  · by_cases hcb : tc.isrCallback = nullptr <;> simp [processIsr, h, hcb]
  · simp [processIsr, h, hcb]
  · simp [processIsr, h, hcb]
  · have hclear : (processIsr (matchEvent tc)).regs.INTFLAG_MC0 = false := by
      rw [(processIsr_matchEvent tc).1]
    rw [processIsr_flag_clear _ hclear]
    exact (processIsr_matchEvent tc).2.1
  · have hclear : (processIsr (matchEvent tc)).regs.INTFLAG_MC0 = false := by
      rw [(processIsr_matchEvent tc).1]
    rw [processIsr_flag_clear _ hclear]
    exact hclear

/-- C3 on the attached unit `tcAttached` after one match event: the single invocation is
`(0x2000, 0x3000)` and a second `processIsr` adds nothing. -/
theorem processIsr_contract_witness :
    (matchEvent tcAttached).regs.INTFLAG_MC0 = true ∧
    (matchEvent tcAttached).isrCallback ≠ nullptr ∧
    processIsr (matchEvent tcAttached) =
      { matchEvent tcAttached with
          regs := { (matchEvent tcAttached).regs with INTFLAG_MC0 := false }
          invoked := [(8192, 12288)] } ∧
    (processIsr (processIsr (matchEvent tcAttached))).invoked = [(8192, 12288)] :=
  ⟨by decide, by decide,
    ((processIsr_contract (matchEvent tcAttached)).1 (by decide)).2.1 (by decide),
    (processIsr_contract tcAttached).2.2.1⟩

/-- C4, as stated, fails: on `tcReinitialized` (attach, then `initialize` and `start()` with no
new attach) the callback is still stored, and processing a match interrupt
appends the invocation `(0x2000, 0x3000)` to the trace. -/
theorem reinitialize_ends_attachment_refuted :
    ¬ ((callProcessIsr (matchEvent tcReinitialized)).regs.INTFLAG_MC0 = false ∧
        (callProcessIsr (matchEvent tcReinitialized)).invoked = tcReinitialized.invoked) := by
  decide

/-- C4, amended: after `attachInterrupt(cb, ctx)`, a later `initialize(period, clock)` followed by
`start()` keeps the stored callback and context and makes no invocation itself;
a match interrupt processed afterwards clears the match flag and invokes `cb`
once with `ctx` when `cb` is not `nullptr`, and invokes nothing when it is. -/
theorem reinitialize_keeps_attachment (hw : Samd) (tc : SAMD51TC) (cb ctx : Ptr)
    (period : Nat) (clock : GCLKDescription) :
    (start hw (initializeTC hw (attachInterrupt hw tc cb ctx) period clock)).isrCallback = cb ∧
    (start hw (initializeTC hw (attachInterrupt hw tc cb ctx) period clock)).isrContext = ctx ∧
    (start hw (initializeTC hw (attachInterrupt hw tc cb ctx) period clock)).invoked
      = tc.invoked ∧
    (callProcessIsr (matchEvent
      (start hw (initializeTC hw (attachInterrupt hw tc cb ctx) period clock)))).regs.INTFLAG_MC0
      = false ∧
    (callProcessIsr (matchEvent
      (start hw (initializeTC hw (attachInterrupt hw tc cb ctx) period clock)))).invoked
      = tc.invoked ++ (if cb ≠ nullptr then [(cb, ctx)] else []) := by
  have hcb : (start hw (initializeTC hw (attachInterrupt hw tc cb ctx) period clock)).isrCallback
      = cb := rfl
  have hctx : (start hw (initializeTC hw (attachInterrupt hw tc cb ctx) period clock)).isrContext
      = ctx := rfl
  have hinv : (start hw (initializeTC hw (attachInterrupt hw tc cb ctx) period clock)).invoked
      = tc.invoked := rfl
  obtain ⟨hr, hi, _, _⟩ := processIsr_matchEvent
    (start hw (initializeTC hw (attachInterrupt hw tc cb ctx) period clock))
  refine ⟨hcb, hctx, hinv, ?_, ?_⟩
  · show (processIsr _).regs.INTFLAG_MC0 = false
    rw [hr]
  · show (processIsr _).invoked = _
    rw [hi, hcb, hctx, hinv]

/-- C5: in every unit state, `attachInterrupt(cb, ctx)` followed at once by `detachInterrupt()`
makes no callback invocation and ends unattached: callback and context are
`nullptr`, the peripheral is disabled, its match interrupt source is disabled,
its line at the interrupt controller is disabled and not pending; a later
`processIsr` invokes nothing, whether or not the match flag is set. -/
theorem attach_then_detach (hw : Samd) (tc : SAMD51TC) (cb ctx : Ptr) :
    (attachInterrupt hw tc cb ctx).invoked = tc.invoked ∧
    (detachInterrupt hw (attachInterrupt hw tc cb ctx)).invoked = tc.invoked ∧
    (detachInterrupt hw (attachInterrupt hw tc cb ctx)).isrCallback = nullptr ∧
    (detachInterrupt hw (attachInterrupt hw tc cb ctx)).isrContext = nullptr ∧
    (detachInterrupt hw (attachInterrupt hw tc cb ctx)).regs.CTRLA_ENABLE = false ∧
    (detachInterrupt hw (attachInterrupt hw tc cb ctx)).regs.INTEN_MC0 = false ∧
    (detachInterrupt hw (attachInterrupt hw tc cb ctx)).nvicEnabled = false ∧
    (detachInterrupt hw (attachInterrupt hw tc cb ctx)).nvicPending = false ∧
    (processIsr (detachInterrupt hw (attachInterrupt hw tc cb ctx))).invoked = tc.invoked ∧
    (processIsr (matchEvent (detachInterrupt hw (attachInterrupt hw tc cb ctx)))).invoked
      = tc.invoked := by
  have hcb : (detachInterrupt hw (attachInterrupt hw tc cb ctx)).isrCallback = nullptr := rfl
  have hinv : (detachInterrupt hw (attachInterrupt hw tc cb ctx)).invoked = tc.invoked := rfl
  refine ⟨rfl, hinv, hcb, rfl, rfl, rfl, rfl, rfl, ?_, ?_⟩
  · unfold processIsr
    split
    · simp only [hcb, ne_eq, not_true_eq_false, if_false]
      exact hinv
    · exact hinv
  · rw [(processIsr_matchEvent _).2.1, hcb, hinv]
    simp

/-- C6: `stop()` run twice gives the state `stop()` run once gives; after it `ENABLE` is clear,
the match interrupt source is disabled, the line at the interrupt controller is
disabled and not pending; the stored period, the clock descriptor, the callback,
the context and the trace are those from before. -/
theorem stop_idempotent (hw : Samd) (tc : SAMD51TC) :
    stop hw (stop hw tc) = stop hw tc ∧
    (stop hw tc).regs.CTRLA_ENABLE = false ∧
    (stop hw tc).regs.INTEN_MC0 = false ∧
    (stop hw tc).nvicEnabled = false ∧
    (stop hw tc).nvicPending = false ∧
    (stop hw tc).nanoseconds = tc.nanoseconds ∧
    (stop hw tc).gclk = tc.gclk ∧
    (stop hw tc).isrCallback = tc.isrCallback ∧
    (stop hw tc).isrContext = tc.isrContext ∧
    (stop hw tc).invoked = tc.invoked :=
  ⟨rfl, rfl, rfl, rfl, rfl, rfl, rfl, rfl, rfl, rfl⟩

/-- C7, as stated, fails: on the running unit `tc1sStarted` (`PRESCALER` 4, `CC[0]` 62,499 from
the period of 1 s), `setPeriod(1000000000000)` followed by `start()` programs no
table entry for the new period, whose value 1,000,000,000 has no admissible
shift; both registers keep the values computed from the period stored before. -/
theorem setPeriod_then_start_refuted :
    (¬ ∃ index, IsSelected (base_compare_value (setPeriod tc1sStarted 1000000000000)) index ∧
        (start samd51 (setPeriod tc1sStarted 1000000000000)).regs.CTRLA_PRESCALER = index ∧
        (start samd51 (setPeriod tc1sStarted 1000000000000)).regs.CC0 =
          base_compare_value (setPeriod tc1sStarted 1000000000000) >>>
            prescaler_shifts.getD index 0 - 1) ∧
    base_compare_value (setPeriod tc1sStarted 1000000000000) = 1000000000 ∧
    (start samd51 (setPeriod tc1sStarted 1000000000000)).regs.CTRLA_PRESCALER = 4 ∧
    (start samd51 (setPeriod tc1sStarted 1000000000000)).regs.CC0 = 62499 ∧
    (start samd51 tc1s).regs.CTRLA_PRESCALER = 4 ∧
    (start samd51 tc1s).regs.CC0 = 62499 := by
  have hv : base_compare_value (setPeriod tc1sStarted 1000000000000) = 1000000000 := by
    decide
  refine ⟨?_, hv, by decide, by decide, by decide, by decide⟩
  rintro ⟨index, ⟨hlt, hle, _⟩, _⟩
  have hge := shift_table_ge (base_compare_value (setPeriod tc1sStarted 1000000000000)) index hlt
  rw [hv] at hle hge
  have h10 : (1000000000 : Nat) >>> 10 = 976562 := by decide
  rw [h10] at hge
  omega

/-- C7, amended: for every 64-bit period `p`, `setPeriod(p)` replaces the stored period by `p`
and changes nothing else (registers, interrupt and clock lines, clock descriptor,
callback, context, trace); a `start()` issued afterwards computes its value from
`p` and is the same whatever period was stored before; and whenever that value
has an admissible table entry (the value shifted by 10 is at most 65535),
`start()` programs the first admissible entry and the compare value for it. -/
theorem setPeriod_frame (hw : Samd) (tc : SAMD51TC) (p : Nat) (hp : p < 2 ^ 64) :
    setPeriod tc p = { tc with nanoseconds := p } ∧
    (setPeriod tc p).nanoseconds = p ∧
    (setPeriod tc p).regs = tc.regs ∧
    (setPeriod tc p).nvicEnabled = tc.nvicEnabled ∧
    (setPeriod tc p).nvicPending = tc.nvicPending ∧
    (setPeriod tc p).mclkMask = tc.mclkMask ∧
    (setPeriod tc p).pchctrl = tc.pchctrl ∧
    (setPeriod tc p).gclk = tc.gclk ∧
    (setPeriod tc p).isrCallback = tc.isrCallback ∧
    (setPeriod tc p).isrContext = tc.isrContext ∧
    (setPeriod tc p).invoked = tc.invoked ∧
    base_compare_value (setPeriod tc p) = p * tc.gclk.frequency % 2 ^ 64 / 1000000000 ∧
    (∀ q, start hw (setPeriod { tc with nanoseconds := q } p) = start hw (setPeriod tc p)) ∧
    ((p * tc.gclk.frequency % 2 ^ 64 / 1000000000) >>> 10 ≤ 65535 →
      ∃ index, IsSelected (p * tc.gclk.frequency % 2 ^ 64 / 1000000000) index ∧
        (start hw (setPeriod tc p)).regs.CTRLA_PRESCALER = index ∧
        (start hw (setPeriod tc p)).regs.CC0 =
          (p * tc.gclk.frequency % 2 ^ 64 / 1000000000) >>> prescaler_shifts.getD index 0 - 1) := by
  have hn : (setPeriod tc p).nanoseconds = p := Nat.mod_eq_of_lt hp
  have heq : setPeriod tc p = { tc with nanoseconds := p } := by
    unfold setPeriod
    rw [Nat.mod_eq_of_lt hp]
  have hb : base_compare_value (setPeriod tc p)
      = p * tc.gclk.frequency % 2 ^ 64 / 1000000000 := by
    rw [heq]
    rfl
  refine ⟨heq, hn, rfl, rfl, rfl, rfl, rfl, rfl, rfl, rfl, rfl, hb, fun q => rfl, fun h => ?_⟩
  rw [← hb] at h ⊢
  exact start_selected hw (setPeriod tc p) h

/-- C7, amended, on the initialised unit `tc1ms` (stored period 1 ms) with the new period 1 s,
whose value 1,000,000 is admissible: `start()` then programs index 4 and compare
value 62,499. -/
theorem setPeriod_frame_witness :
    (1000000000 < 2 ^ 64) ∧
    (1000000000 * tc1ms.gclk.frequency % 2 ^ 64 / 1000000000) >>> 10 ≤ 65535 ∧
    setPeriod tc1ms 1000000000 = { tc1ms with nanoseconds := 1000000000 } ∧
    (setPeriod tc1ms 1000000000).regs = tc1ms.regs ∧
    (∃ index, IsSelected (1000000000 * tc1ms.gclk.frequency % 2 ^ 64 / 1000000000) index ∧
        (start samd51 (setPeriod tc1ms 1000000000)).regs.CTRLA_PRESCALER = index ∧
        (start samd51 (setPeriod tc1ms 1000000000)).regs.CC0 =
          (1000000000 * tc1ms.gclk.frequency % 2 ^ 64 / 1000000000) >>>
            prescaler_shifts.getD index 0 - 1) ∧
    (start samd51 (setPeriod tc1ms 1000000000)).regs.CTRLA_PRESCALER = 4 ∧
    (start samd51 (setPeriod tc1ms 1000000000)).regs.CC0 = 62499 :=
  ⟨by decide, by decide, (setPeriod_frame samd51 tc1ms 1000000000 (by decide)).1,
    (setPeriod_frame samd51 tc1ms 1000000000 (by decide)).2.2.1,
    (setPeriod_frame samd51 tc1ms 1000000000 (by decide)).2.2.2.2.2.2.2.2.2.2.2.2.2 (by decide),
    by decide, by decide⟩

end SAMD51
